import Mathlib

/-!
Verification development for the Whalen protocol backend.

The definitions below are a shallow embedding of the backend's JavaScript
services (`MatchingService`, `PaymentService`, `VerificationService`), the
model-layer queries they call (`ProviderCapability.search`, `Match.findById`,
`Match.update`, `ComputeRequest.update`) and the scoring helper
(`calculateMatchScore`).  Database tables are embedded as lists of rows,
SQL `UPDATE ... WHERE id = $n` as a `List.map` guarded on the id,
SQL `SELECT ... WHERE` as `List.find?`/`List.filter`, and inner joins as
`Option.bind` over the joined lookup.  Monetary and score arithmetic is
embedded in `ℚ` (the schema stores DECIMAL(18,8); the spec's arithmetic is
exact decimal).  Timestamps (`NOW()`, `CURRENT_TIMESTAMP`) are an explicit
`now : Nat` parameter.  The Stripe payment processor is embedded as an
explicit state: the set of payment intents plus the list of refund calls
issued against it.  Thrown `Error` messages become `Except.error` with the
source's message strings (services that wrap rethrown errors keep their
wrapping text).
-/

/-- JavaScript truthiness default `v || d` for an optional numeric field:
`undefined`/`null` and `0` are falsy, so both fall back to the default. -/
def jsOrNum (v : Option ℚ) (d : ℚ) : ℚ :=
  match v with
  | none => d
  | some x => if x = 0 then d else x

/-- JavaScript `Math.round` (round half toward positive infinity). -/
def jsRound (x : ℚ) : Int :=
  Int.floor (x + 1/2)

/-- Row of the `agents` table (fields used by the embedded operations). -/
structure AgentRow where
  id : String
  name : String
  reputation_score : Option ℚ
  uptime_percentage : Option ℚ
deriving DecidableEq, Repr

/-- Row of the `provider_capabilities` table. -/
structure CapRow where
  id : String
  provider_id : String
  gpu_count : Int
  gpu_type : String
  cpu_cores : Int
  memory_gb : Int
  price_per_hour : ℚ
  available_hours : Int
  region : Option String
  availability_status : String
deriving DecidableEq, Repr

/-- Row of the `compute_requests` table. -/
structure RequestRow where
  id : String
  requester_id : String
  gpu_count : Int
  gpu_type : String
  duration_hours : Int
  max_price_per_hour : ℚ
  status : String
  updated_at : Nat
deriving DecidableEq, Repr

/-- Row of the `matches` table. -/
structure MatchRow where
  id : String
  request_id : String
  provider_id : String
  capability_id : Option String
  agreed_price_per_hour : ℚ
  status : String
  start_time : Option Nat
  end_time : Option Nat
  updated_at : Nat
deriving DecidableEq, Repr

/-- Row of the `transactions` table. -/
structure TxRow where
  id : String
  match_id : String
  requester_id : String
  provider_id : String
  amount : ℚ
  currency : String
  status : String
  payment_method : Option String
  transaction_hash : Option String
  updated_at : Nat
deriving DecidableEq, Repr

/-- Row of the `verifications` table (`proof_data` is stored as its JSON
serialization, as the service inserts `JSON.stringify(proofData)`). -/
structure VerifRow where
  id : String
  transaction_id : String
  verifier_id : Option String
  proof_hash : Option String
  proof_data : Option String
  verified : Bool
  notes : Option String
  updated_at : Nat
deriving DecidableEq, Repr

/-- The relational store: one list of rows per table (`matchRows` is the
`matches` table; `matches` is a Lean keyword). -/
structure DB where
  agents : List AgentRow
  capabilities : List CapRow
  requests : List RequestRow
  matchRows : List MatchRow
  transactions : List TxRow
  verifications : List VerifRow
deriving DecidableEq, Repr

/-- A Stripe payment intent as far as the backend observes it:
id, status, minor-unit amount, client secret. -/
structure StripeIntent where
  id : String
  status : String
  amount : Int
  client_secret : String
deriving DecidableEq, Repr

/-- State of the Stripe collaborator: its intents, and the list of
`refunds.create` calls issued (each recorded by the `payment_intent`
reference it was given). -/
structure StripeState where
  intents : List StripeIntent
  refunds : List (Option String)
deriving DecidableEq, Repr

/-- External event: the customer completes payment, so the processor now
reports the intent as `succeeded` (this is the processor-side transition
that must happen between `createPaymentIntent` and `confirmPayment`). -/
def StripeState.succeed (s : StripeState) (intentId : String) : StripeState :=
  { s with intents := s.intents.map fun i =>
      if i.id == intentId then { i with status := "succeeded" } else i }

/-- The ad-hoc request shape `MatchingService.findMatches` reads:
`gpu_count`, `gpu_type`, `max_price_per_hour`, `duration_hours` and an
optional `region` (`request.region || null`). -/
structure ScoreRequest where
  gpu_count : Int
  gpu_type : String
  max_price_per_hour : ℚ
  duration_hours : Int
  region : Option String
deriving DecidableEq, Repr

/-- View of a `compute_requests` row as a `findMatches` input.  The
`compute_requests` table has no region column, so `request.region` is
`undefined` and the search runs with a `null` region. -/
def RequestRow.toScoreRequest (r : RequestRow) : ScoreRequest :=
  { gpu_count := r.gpu_count
    gpu_type := r.gpu_type
    max_price_per_hour := r.max_price_per_hour
    duration_hours := r.duration_hours
    region := none }

/-- Row shape returned by `ProviderCapability.search`: `pc.*` plus the
joined agent's `reputation_score` and `uptime_percentage`. -/
structure SearchRow where
  cap : CapRow
  reputation_score : Option ℚ
  uptime_percentage : Option ℚ
deriving DecidableEq, Repr

/-- The WHERE clause of `ProviderCapability.search`: gpu_count at least the
requested count, exact gpu_type, price at most the cap, availability
`available`, and an exact region match when a region is given. -/
def passesFilter (gpuCount : Int) (gpuType : String) (maxPrice : ℚ)
    (region : Option String) (pc : CapRow) : Bool :=
  decide (gpuCount ≤ pc.gpu_count) &&
  (pc.gpu_type == gpuType) &&
  decide (pc.price_per_hour ≤ maxPrice) &&
  (pc.availability_status == "available") &&
  (match region with
   | none => true
   | some r => pc.region == some r)

/-- Comparison used for `reputation_score DESC`: `a` may come no later than
`b` when `a`'s reputation is at least `b`'s (Postgres puts NULLs first in a
DESC ordering, so a NULL reputation counts as largest). -/
def repDescLe (a b : Option ℚ) : Bool :=
  match a, b with
  | none, _ => true
  | some _, none => false
  | some x, some y => decide (y ≤ x)

/-- The ORDER BY of `ProviderCapability.search`:
`price_per_hour ASC, reputation_score DESC`. -/
def searchOrder (a b : SearchRow) : Prop :=
  a.cap.price_per_hour < b.cap.price_per_hour ∨
    (a.cap.price_per_hour = b.cap.price_per_hour ∧
      repDescLe a.reputation_score b.reputation_score = true)

instance : DecidableRel searchOrder := fun a b => by
  unfold searchOrder
  exact inferInstance

namespace ProviderCapability

/-- Embedding of `ProviderCapability.search`: filter the capability rows by
the WHERE clause, inner-join each to its agent row (a capability whose
provider has no agent row is dropped by the join; primary-key uniqueness
makes `find?` pick the unique agent), and sort by the ORDER BY. -/
def search (db : DB) (gpuCount : Int) (gpuType : String) (maxPrice : ℚ)
    (region : Option String) : List SearchRow :=
  let joined := (db.capabilities.filter
      (passesFilter gpuCount gpuType maxPrice region)).filterMap fun pc =>
    (db.agents.find? fun a => a.id == pc.provider_id).map fun a =>
      { cap := pc
        reputation_score := a.reputation_score
        uptime_percentage := a.uptime_percentage }
  joined.insertionSort searchOrder

end ProviderCapability

/-- Embedding of `calculateMatchScore` from `utils/helpers.js`: base 100,
±20/−30 for gpu count, the price-ratio bonus or −40, +15/−20 for
availability, plus `(reputation_score || 5) * 2`, floored at 0. -/
def calculateMatchScore (request : ScoreRequest) (capability : SearchRow) : ℚ :=
  let score : ℚ := 100
  let score := if request.gpu_count ≤ capability.cap.gpu_count
    then score + 20 else score - 30
  let score := if capability.cap.price_per_hour ≤ request.max_price_per_hour
    then score + (1 - capability.cap.price_per_hour / request.max_price_per_hour) * 20
    else score - 40
  let score := if request.duration_hours ≤ capability.cap.available_hours
    then score + 15 else score - 20
  let score := score + (jsOrNum capability.reputation_score 5) * 2
  max 0 score

namespace MatchingService

/-- Embedding of `MatchingService.findMatches`: run the search, return `[]`
when it is empty, otherwise attach a `match_score` to each row, sort by
score descending (JavaScript's sort with the comparator
`b.match_score - a.match_score` is stable) and truncate to `limit`. -/
def findMatches (db : DB) (request : ScoreRequest) (limit : Nat) :
    List (SearchRow × ℚ) :=
  let providers := ProviderCapability.search db request.gpu_count
    request.gpu_type request.max_price_per_hour request.region
  if providers.isEmpty then []
  else
    let scored := providers.map fun p => (p, calculateMatchScore request p)
    let sorted := scored.insertionSort fun a b => b.2 ≤ a.2
    sorted.take limit

end MatchingService

namespace MatchModel

/-- Embedding of `Match.findById`: the row with the given id, inner-joined
to its compute request and its provider agent — a match whose request or
provider row is missing is invisible to this query. -/
def findById (db : DB) (id : String) : Option MatchRow :=
  (db.matchRows.find? fun m => m.id == id).bind fun m =>
    (db.requests.find? fun r => r.id == m.request_id).bind fun _ =>
      (db.agents.find? fun a => a.id == m.provider_id).map fun _ => m

/-- Embedding of `Match.update`: apply the SET clause `f` (plus
`updated_at = CURRENT_TIMESTAMP`) to every row with the given id and return
the updated row (`RETURNING *`, `null` when no row matched). -/
def update (db : DB) (id : String) (f : MatchRow → MatchRow) (now : Nat) :
    Option MatchRow × DB :=
  let rows := db.matchRows.map fun m =>
    if m.id == id then { f m with updated_at := now } else m
  (rows.find? fun m => m.id == id, { db with matchRows := rows })

end MatchModel

namespace ComputeRequestModel

/-- Embedding of `ComputeRequest.findById`. -/
def findById (db : DB) (id : String) : Option RequestRow :=
  db.requests.find? fun r => r.id == id

/-- Embedding of `ComputeRequest.update` for the `{ status }` updates the
matching service performs. -/
def update (db : DB) (id : String) (status : String) (now : Nat) :
    Option RequestRow × DB :=
  let rows := db.requests.map fun r =>
    if r.id == id then { r with status := status, updated_at := now } else r
  (rows.find? fun r => r.id == id, { db with requests := rows })

end ComputeRequestModel

namespace MatchingService

/-- Embedding of `MatchingService.autoMatch`: look up the request (error
when absent), run `findMatches` with limit 1, return `null` when empty;
otherwise insert a `proposed` match bound to the best candidate (fresh id
`newId`) and set the request's status to `matched`. -/
def autoMatch (db : DB) (requestId : String) (newId : String) (now : Nat) :
    Except String (Option MatchRow × DB) :=
  match ComputeRequestModel.findById db requestId with
  | none => .error "Request not found"
  | some request =>
    match findMatches db request.toScoreRequest 1 with
    | [] => .ok (none, db)
    | best :: _ =>
      let m : MatchRow :=
        { id := newId
          request_id := requestId
          provider_id := best.1.cap.provider_id
          capability_id := some best.1.cap.id
          agreed_price_per_hour := best.1.cap.price_per_hour
          status := "proposed"
          start_time := none
          end_time := none
          updated_at := now }
      let db1 : DB := { db with matchRows := db.matchRows ++ [m] }
      let (_, db2) := ComputeRequestModel.update db1 requestId "matched" now
      .ok (some m, db2)

/-- Embedding of `MatchingService.acceptMatch`: not-found and
caller-is-provider checks, then `status = accepted, start_time = now` on the
match and `status = in_progress` on the parent request.  There is no check
of the match's current status. -/
def acceptMatch (db : DB) (matchId : String) (providerId : String)
    (now : Nat) : Except String (Option MatchRow × DB) :=
  match MatchModel.findById db matchId with
  | none => .error "Match not found"
  | some m =>
    if m.provider_id ≠ providerId then
      .error "Unauthorized: Only the provider can accept this match"
    else
      let (updated, db1) := MatchModel.update db matchId
        (fun mm => { mm with status := "accepted", start_time := some now }) now
      let (_, db2) := ComputeRequestModel.update db1 m.request_id "in_progress" now
      .ok (updated, db2)

/-- Embedding of `MatchingService.completeMatch`: not-found and
caller-is-provider checks, then `status = completed, end_time = now` on the
match and `status = completed` on the parent request.  There is no check of
the match's current status. -/
def completeMatch (db : DB) (matchId : String) (providerId : String)
    (now : Nat) : Except String (Option MatchRow × DB) :=
  match MatchModel.findById db matchId with
  | none => .error "Match not found"
  | some m =>
    if m.provider_id ≠ providerId then
      .error "Unauthorized: Only the provider can complete this match"
    else
      let (updated, db1) := MatchModel.update db matchId
        (fun mm => { mm with status := "completed", end_time := some now }) now
      let (_, db2) := ComputeRequestModel.update db1 m.request_id "completed" now
      .ok (updated, db2)

/-- Embedding of `MatchingService.cancelMatch`: only a not-found check (the
`agentId` argument is never inspected — no ownership check), then
`status = cancelled` on the match; the parent request is not touched. -/
def cancelMatch (db : DB) (matchId : String) (_agentId : String)
    (now : Nat) : Except String (Option MatchRow × DB) :=
  match MatchModel.findById db matchId with
  | none => .error "Match not found"
  | some _ =>
    let (updated, db1) := MatchModel.update db matchId
      (fun mm => { mm with status := "cancelled" }) now
    .ok (updated, db1)

end MatchingService

/-- What `PaymentService.createPaymentIntent` returns to its caller. -/
structure PaymentIntentResult where
  transactionId : String
  paymentIntentId : String
  clientSecret : String
  amount : ℚ
  status : String
deriving DecidableEq, Repr

namespace PaymentService

/-- Embedding of `PaymentService.createPaymentIntent`: open a Stripe intent
for `Math.round(amount * 100)` minor units (the processor assigns the fresh
`intentId`/`secret`), then insert a `pending` transaction row (fresh `txId`)
and return ids, client secret, amount and status.  The function performs no
validation of `amount`. -/
def createPaymentIntent (db : DB) (s : StripeState) (matchId : String)
    (amount : ℚ) (requesterId providerId : String)
    (intentId secret txId : String) (now : Nat) :
    PaymentIntentResult × DB × StripeState :=
  let intent : StripeIntent :=
    { id := intentId
      status := "requires_payment_method"
      amount := jsRound (amount * 100)
      client_secret := secret }
  let s1 : StripeState := { s with intents := s.intents ++ [intent] }
  let tx : TxRow :=
    { id := txId
      match_id := matchId
      requester_id := requesterId
      provider_id := providerId
      amount := amount
      currency := "USD"
      status := "pending"
      payment_method := some "stripe"
      transaction_hash := none
      updated_at := now }
  let db1 : DB := { db with transactions := db.transactions ++ [tx] }
  ({ transactionId := txId
     paymentIntentId := intentId
     clientSecret := secret
     amount := amount
     status := "pending" }, db1, s1)

/-- Embedding of `PaymentService.confirmPayment`: retrieve the intent from
the processor, fail unless it reports `succeeded`, then set the transaction
to `escrowed` storing the intent id as `transaction_hash`; not-found when
the update touches no row.  Thrown messages carry the service's wrapping
text. -/
def confirmPayment (db : DB) (s : StripeState)
    (paymentIntentId transactionId : String) (now : Nat) :
    Except String (TxRow × DB) :=
  match s.intents.find? fun i => i.id == paymentIntentId with
  | none => .error "Payment confirmation failed: No such payment intent"
  | some intent =>
    if intent.status ≠ "succeeded" then
      .error ("Payment confirmation failed: Payment not succeeded. Status: "
        ++ intent.status)
    else
      let rows := db.transactions.map fun t =>
        if t.id == transactionId then
          { t with status := "escrowed", transaction_hash := some intent.id,
                   updated_at := now }
        else t
      match rows.find? fun t => t.id == transactionId with
      | none => .error "Payment confirmation failed: Transaction not found"
      | some t => .ok (t, { db with transactions := rows })

/-- Embedding of `PaymentService.releasePayment`.  With `verified = false`:
read the stored processor reference (not-found when the row is absent),
issue exactly one `refunds.create` call against it, and set the transaction
to `refunded`.  With `verified = true`: set the transaction to `settled`
with no processor call (not-found when the update touches no row). -/
def releasePayment (db : DB) (s : StripeState) (transactionId : String)
    (verified : Bool) (now : Nat) :
    Except String (Option TxRow × DB × StripeState) :=
  if !verified then
    match db.transactions.find? fun t => t.id == transactionId with
    | none => .error "Payment release failed: Transaction not found"
    | some t =>
      let s1 : StripeState := { s with refunds := s.refunds ++ [t.transaction_hash] }
      let rows := db.transactions.map fun x =>
        if x.id == transactionId then
          { x with status := "refunded", updated_at := now }
        else x
      .ok (rows.find? fun x => x.id == transactionId,
           { db with transactions := rows }, s1)
  else
    let rows := db.transactions.map fun x =>
      if x.id == transactionId then
        { x with status := "settled", updated_at := now }
      else x
    match rows.find? fun x => x.id == transactionId with
    | none => .error "Payment release failed: Transaction not found"
    | some t => .ok (some t, { db with transactions := rows }, s)

end PaymentService

/-- JavaScript falsiness of an optional string body field (`!matchId`):
absent or empty. -/
def jsFalsyStr (v : Option String) : Bool :=
  match v with
  | none => true
  | some x => x == ""

/-- JavaScript falsiness of an optional numeric body field (`!amount`):
absent or zero. -/
def jsFalsyNum (v : Option ℚ) : Bool :=
  match v with
  | none => true
  | some x => x == 0

/-- Outcome of the `POST /api/v1/payments/create-intent` route handler. -/
inductive RouteOutcome where
  | badRequest (msg : String)
  | notFound (msg : String)
  | forbidden (msg : String)
  | created (data : PaymentIntentResult)
deriving DecidableEq, Repr

namespace PaymentRoutes

/-- Embedding of the `create-intent` route handler from
`routes/payments.js`: 400 when `matchId`/`amount` is falsy (a zero amount
already trips this check), 400 when `amount <= 0`, then the
match/request/capability join (404 when it is empty), a requester-only
check (403), and finally `PaymentService.createPaymentIntent`. -/
def createIntent (db : DB) (s : StripeState) (matchId : Option String)
    (amount : Option ℚ) (agentId : String) (intentId secret txId : String)
    (now : Nat) : RouteOutcome × DB × StripeState :=
  if jsFalsyStr matchId || jsFalsyNum amount then
    (.badRequest "Missing required fields: matchId, amount", db, s)
  else
    let mid := matchId.getD ""
    let amt := amount.getD 0
    if amt ≤ 0 then
      (.badRequest "Amount must be greater than 0", db, s)
    else
      let joined := (db.matchRows.find? fun m => m.id == mid).bind fun m =>
        (db.requests.find? fun r => r.id == m.request_id).bind fun r =>
          (m.capability_id.bind fun cid =>
            db.capabilities.find? fun pc => pc.id == cid).map fun _ => (m, r)
      match joined with
      | none => (.notFound "Match not found", db, s)
      | some (m, r) =>
        if r.requester_id ≠ agentId then
          (.forbidden "Only the requester can create payment for this match", db, s)
        else
          let (res, db1, s1) := PaymentService.createPaymentIntent db s mid
            amt r.requester_id m.provider_id intentId secret txId now
          (.created res, db1, s1)

end PaymentRoutes

/-- JSON values as the proof payloads are structured (numbers restricted to
integers; the claims under verification do not depend on float
formatting). -/
inductive Json where
  | null
  | bool (b : Bool)
  | num (n : Int)
  | str (s : String)
  | arr (xs : List Json)
  | obj (fields : List (String × Json))

/-- One hexadecimal digit, lowercase. -/
def hexDigitChar (n : Nat) : Char :=
  if n < 10 then Char.ofNat (48 + n) else Char.ofNat (87 + n)

/-- String-character escaping as `JSON.stringify` performs it. -/
def escapeChar (c : Char) : String :=
  if c = '"' then "\\\""
  else if c = '\\' then "\\\\"
  else if c = '\x08' then "\\b"
  else if c = '\x0c' then "\\f"
  else if c = '\n' then "\\n"
  else if c = '\r' then "\\r"
  else if c = '\t' then "\\t"
  else if c.toNat < 32 then
    "\\u00" ++ String.mk [hexDigitChar (c.toNat / 16), hexDigitChar (c.toNat % 16)]
  else String.singleton c

/-- A JSON string literal: quotes around the escaped characters. -/
def quoteJson (s : String) : String :=
  "\"" ++ String.join (s.data.map escapeChar) ++ "\""

mutual

/-- Embedding of `JSON.stringify` on the payload model: a canonical,
order-preserving serialization (object fields keep insertion order, as
`JSON.stringify` does for string keys). -/
def stringify : Json → String
  | .null => "null"
  | .bool true => "true"
  | .bool false => "false"
  | .num n => toString n
  | .str s => quoteJson s
  | .arr xs => "[" ++ stringifyElems xs ++ "]"
  | .obj fs => "\x7b" ++ stringifyFields fs ++ "\x7d"

/-- Comma-joined serialization of array elements. -/
def stringifyElems : List Json → String
  | [] => ""
  | [x] => stringify x
  | x :: y :: rest => stringify x ++ "," ++ stringifyElems (y :: rest)

/-- Comma-joined serialization of object fields. -/
def stringifyFields : List (String × Json) → String
  | [] => ""
  | [(k, v)] => quoteJson k ++ ":" ++ stringify v
  | (k, v) :: y :: rest =>
    quoteJson k ++ ":" ++ stringify v ++ "," ++ stringifyFields (y :: rest)

end

/-- UTF-8 encoding of one character (Node hashes the UTF-8 bytes of the
serialized string). -/
def utf8EncodeChar (c : Char) : List Nat :=
  let n := c.toNat
  if n < 128 then [n]
  else if n < 2048 then
    [192 ||| (n >>> 6), 128 ||| (n &&& 63)]
  else if n < 65536 then
    [224 ||| (n >>> 12), 128 ||| ((n >>> 6) &&& 63), 128 ||| (n &&& 63)]
  else
    [240 ||| (n >>> 18), 128 ||| ((n >>> 12) &&& 63),
     128 ||| ((n >>> 6) &&& 63), 128 ||| (n &&& 63)]

/-- UTF-8 bytes of a string. -/
def utf8Bytes (s : String) : List Nat :=
  s.data.foldr (fun c acc => utf8EncodeChar c ++ acc) []

/-- Modulus for 32-bit words. -/
def w32 : Nat := 4294967296

/-- Right rotation of a 32-bit word. -/
def rotr (n x : Nat) : Nat :=
  ((x >>> n) ||| (x <<< (32 - n))) % w32

/-- Bitwise complement within 32 bits. -/
def notW (x : Nat) : Nat := 4294967295 ^^^ x

/-- SHA-256 small sigma 0. -/
def ssig0 (x : Nat) : Nat := (rotr 7 x) ^^^ (rotr 18 x) ^^^ (x >>> 3)

/-- SHA-256 small sigma 1. -/
def ssig1 (x : Nat) : Nat := (rotr 17 x) ^^^ (rotr 19 x) ^^^ (x >>> 10)

/-- SHA-256 big sigma 0. -/
def bsig0 (x : Nat) : Nat := (rotr 2 x) ^^^ (rotr 13 x) ^^^ (rotr 22 x)

/-- SHA-256 big sigma 1. -/
def bsig1 (x : Nat) : Nat := (rotr 6 x) ^^^ (rotr 11 x) ^^^ (rotr 25 x)

/-- SHA-256 choose function. -/
def chW (x y z : Nat) : Nat := (x &&& y) ^^^ ((notW x) &&& z)

/-- SHA-256 majority function. -/
def majW (x y z : Nat) : Nat := (x &&& y) ^^^ (x &&& z) ^^^ (y &&& z)

/-- The SHA-256 round constants (decimal). -/
def shaK : List Nat :=
  [1116352408, 1899447441, 3049323471, 3921009573, 961987163,
   1508970993, 2453635748, 2870763221, 3624381080, 310598401,
   607225278, 1426881987, 1925078388, 2162078206, 2614888103,
   3248222580, 3835390401, 4022224774, 264347078, 604807628,
   770255983, 1249150122, 1555081692, 1996064986, 2554220882,
   2821834349, 2952996808, 3210313671, 3336571891, 3584528711,
   113926993, 338241895, 666307205, 773529912, 1294757372,
   1396182291, 1695183700, 1986661051, 2177026350, 2456956037,
   2730485921, 2820302411, 3259730800, 3345764771, 3516065817,
   3600352804, 4094571909, 275423344, 430227734, 506948616,
   659060556, 883997877, 958139571, 1322822218, 1537002063,
   1747873779, 1955562222, 2024104815, 2227730452, 2361852424,
   2428436474, 2756734187, 3204031479, 3329325298]

/-- The SHA-256 initial hash state (decimal). -/
def shaH0 : List Nat :=
  [1779033703, 3144134277, 1013904242, 2773480762,
   1359893119, 2600822924, 528734635, 1541459225]

/-- Big-endian bytes of a 64-bit length. -/
def be64Bytes (n : Nat) : List Nat :=
  [(n >>> 56) % 256, (n >>> 48) % 256, (n >>> 40) % 256, (n >>> 32) % 256,
   (n >>> 24) % 256, (n >>> 16) % 256, (n >>> 8) % 256, n % 256]

/-- SHA-256 padding: a 0x80 byte, zeros to 56 mod 64, the bit length. -/
def padMessage (msg : List Nat) : List Nat :=
  let L := msg.length
  let k := (120 - (L + 1) % 64) % 64
  msg ++ 128 :: List.replicate k 0 ++ be64Bytes (8 * L)

/-- Split a byte list into 64-byte blocks. -/
def chunks64 : List Nat → List (List Nat)
  | [] => []
  | x :: rest => ((x :: rest).take 64) :: chunks64 ((x :: rest).drop 64)
termination_by l => l.length
decreasing_by
  simp [List.length_drop]
  omega

/-- Big-endian 32-bit words of a byte list. -/
def toWords : List Nat → List Nat
  | a :: b :: c :: d :: rest => (((a * 256 + b) * 256 + c) * 256 + d) :: toWords rest
  | _ => []

/-- Array lookup defaulting to zero. -/
def aget (a : Array Nat) (i : Nat) : Nat := a.getD i 0

/-- Extend the 16-word block to the 64-word message schedule. -/
def extendSchedule (w : Array Nat) : Array Nat :=
  (List.range 48).foldl (fun w _ =>
    let t := w.size
    w.push ((ssig1 (aget w (t - 2)) + aget w (t - 7) +
      ssig0 (aget w (t - 15)) + aget w (t - 16)) % w32)) w

/-- One SHA-256 compression over a 64-byte block. -/
def compressBlock (h : List Nat) (block : List Nat) : List Nat :=
  let w := extendSchedule (toWords block).toArray
  let g8 := fun i => h.getD i 0
  let st := (List.range 64).foldl
    (fun (st : Nat × Nat × Nat × Nat × Nat × Nat × Nat × Nat) i =>
      let (a, b, c, d, e, f, g, hh) := st
      let t1 := (hh + bsig1 e + chW e f g + shaK.getD i 0 + aget w i) % w32
      let t2 := (bsig0 a + majW a b c) % w32
      ((t1 + t2) % w32, a, b, c, (d + t1) % w32, e, f, g))
    (g8 0, g8 1, g8 2, g8 3, g8 4, g8 5, g8 6, g8 7)
  let (a, b, c, d, e, f, g, hh) := st
  [(g8 0 + a) % w32, (g8 1 + b) % w32, (g8 2 + c) % w32, (g8 3 + d) % w32,
   (g8 4 + e) % w32, (g8 5 + f) % w32, (g8 6 + g) % w32, (g8 7 + hh) % w32]

/-- SHA-256 of a byte list, as eight 32-bit words. -/
def sha256Words (msg : List Nat) : List Nat :=
  (chunks64 (padMessage msg)).foldl compressBlock shaH0

/-- Lowercase zero-padded 8-digit hex of a 32-bit word. -/
def toHex8 (x : Nat) : String :=
  String.mk ((List.range 8).map fun i => hexDigitChar ((x >>> (28 - 4 * i)) &&& 15))

/-- Hex digest of SHA-256 (`digest('hex')`). -/
def sha256Hex (msg : List Nat) : String :=
  String.join ((sha256Words msg).map toHex8)

namespace VerificationService

/-- Embedding of `VerificationService.generateProofHash`: the SHA-256 hex
digest of `JSON.stringify(proofData)`. -/
def generateProofHash (proofData : Json) : String :=
  sha256Hex (utf8Bytes (stringify proofData))

/-- Embedding of `VerificationService.verifyProofHash`: recompute and
compare. -/
def verifyProofHash (proofHash : String) (proofData : Json) : Bool :=
  proofHash == generateProofHash proofData

/-- Embedding of `VerificationService.verifyWork`: not-found when the
verification row is absent; otherwise set verified/verifier/notes on it and
return the updated row.  When `approved` is true, additionally set the
associated transaction's status to `verified` and — via the transaction's
`match_id` — the parent match's status to `completed`.  No payment-release
call is made (the function does not touch the payment processor at all). -/
def verifyWork (db : DB) (verificationId verifierId : String)
    (approved : Bool) (notes : String) (now : Nat) :
    Except String (Option VerifRow × DB) :=
  match db.verifications.find? fun v => v.id == verificationId with
  | none => .error "Work verification failed: Verification not found"
  | some verif =>
    let newVerifs := db.verifications.map fun v =>
      if v.id == verificationId then
        { v with verified := approved, verifier_id := some verifierId,
                 notes := some notes, updated_at := now }
      else v
    let result := newVerifs.find? fun v => v.id == verificationId
    let db1 : DB := { db with verifications := newVerifs }
    if approved then
      let db2 : DB := { db1 with transactions := db1.transactions.map fun t =>
        if t.id == verif.transaction_id then
          { t with status := "verified", updated_at := now }
        else t }
      match db2.transactions.find? fun t => t.id == verif.transaction_id with
      | some t =>
        let db3 : DB := { db2 with matchRows := db2.matchRows.map fun m =>
          if m.id == t.match_id then
            { m with status := "completed", updated_at := now }
          else m }
        .ok (result, db3)
      | none => .ok (result, db2)
    else
      .ok (result, db1)

end VerificationService

/-! Helper lemmas about the list-embedded store operations. -/

/-- A guarded row update commutes with row lookup: updating every row that
satisfies `p` (by an update that does not change whether `p` holds) and then
looking one up is looking one up first and then updating it. -/
theorem find?_map_guard {α : Type} (l : List α) (p : α → Bool) (f : α → α)
    (hf : ∀ a, p (f a) = p a) :
    (l.map fun a => if p a then f a else a).find? p = (l.find? p).map f := by
  induction l with
  | nil => rfl
  | cons a l ih =>
    by_cases h : p a
    · simp [List.find?_cons, h, hf]
    · simp [List.find?_cons, h, hf, ih]

/-- A `Match.findById` hit is a hit on the raw `matches` table. -/
theorem findById_eq_some {db : DB} {id : String} {m : MatchRow}
    (hm : MatchModel.findById db id = some m) :
    db.matchRows.find? (fun x => x.id == id) = some m := by
  unfold MatchModel.findById at hm
  obtain ⟨m0, h0, hrest⟩ := Option.bind_eq_some.mp hm
  obtain ⟨r0, h1, hrest2⟩ := Option.bind_eq_some.mp hrest
  obtain ⟨a0, h2, h3⟩ := Option.map_eq_some'.mp hrest2
  rw [h0, h3]

/-! Claim C4 — the match score formula. -/

/-- The score function exactly as the claim states it: reputation defaults
to 5 only when absent (written from the spec's words, for comparison with
`calculateMatchScore`). -/
def claimScore (request : ScoreRequest) (capability : SearchRow) : ℚ :=
  max 0 (100
    + (if request.gpu_count ≤ capability.cap.gpu_count then 20 else -30)
    + (if capability.cap.price_per_hour ≤ request.max_price_per_hour
        then (1 - capability.cap.price_per_hour / request.max_price_per_hour) * 20
        else -40)
    + (if request.duration_hours ≤ capability.cap.available_hours then 15 else -20)
    + (capability.reputation_score.getD 5) * 2)

/-- The score function with the claim amended at one point: reputation
defaults to 5 when absent or zero, because the source computes
`(capability.reputation_score || 5) * 2` and `0` is falsy. -/
def amendedClaimScore (request : ScoreRequest) (capability : SearchRow) : ℚ :=
  max 0 (100
    + (if request.gpu_count ≤ capability.cap.gpu_count then 20 else -30)
    + (if capability.cap.price_per_hour ≤ request.max_price_per_hour
        then (1 - capability.cap.price_per_hour / request.max_price_per_hour) * 20
        else -40)
    + (if request.duration_hours ≤ capability.cap.available_hours then 15 else -20)
    + (jsOrNum capability.reputation_score 5) * 2)

/-- Request used in the score counterexample. -/
def exReq4 : ScoreRequest :=
  { gpu_count := 1, gpu_type := "H100", max_price_per_hour := 10,
    duration_hours := 1, region := none }

/-- Capability whose provider has reputation score exactly 0. -/
def exCapRep0 : SearchRow :=
  { cap := { id := "c0", provider_id := "p0", gpu_count := 1,
             gpu_type := "H100", cpu_cores := 8, memory_gb := 64,
             price_per_hour := 10, available_hours := 1, region := none,
             availability_status := "available" }
    reputation_score := some 0
    uptime_percentage := none }

/-- C4 counterexample: at a capability whose reputation score is present
but 0, the implemented score is 145 (the falsy `|| 5` default fires) while
the claim's formula gives 135, so the claimed equation is false. -/
theorem calculateMatchScore_ne_claimScore :
    calculateMatchScore exReq4 exCapRep0 = 145 ∧
    claimScore exReq4 exCapRep0 = 135 ∧
    calculateMatchScore exReq4 exCapRep0 ≠ claimScore exReq4 exCapRep0 := by
  refine ⟨by norm_num [calculateMatchScore, exReq4, exCapRep0, jsOrNum],
          by norm_num [claimScore, exReq4, exCapRep0],
          ?_⟩
  norm_num [calculateMatchScore, claimScore, exReq4, exCapRep0, jsOrNum]

/-- The request of the spec's concrete scoring scenario. -/
def exReqScenario : ScoreRequest :=
  { gpu_count := 8, gpu_type := "H100", max_price_per_hour := 50,
    duration_hours := 2, region := none }

/-- Capability A of the spec's concrete scoring scenario. -/
def exCapScenario : SearchRow :=
  { cap := { id := "cA", provider_id := "pA", gpu_count := 8,
             gpu_type := "H100", cpu_cores := 64, memory_gb := 512,
             price_per_hour := 45.5, available_hours := 100, region := none,
             availability_status := "available" }
    reputation_score := some 4.8
    uptime_percentage := none }

/-- C4 (amended): the implemented score equals the claim's formula with the
reputation default amended to fire when the stored reputation is absent or
zero; and on the spec's concrete scenario (gpu 8/8, price 45.5 of max 50,
hours 100 ≥ 2, reputation 4.8) the score is exactly 146.4, floored at 0
with no ceiling. -/
theorem calculateMatchScore_spec :
    (∀ request capability,
      calculateMatchScore request capability = amendedClaimScore request capability) ∧
    calculateMatchScore exReqScenario exCapScenario = 146.4 := by
  constructor
  · intro r c
    rcases c with ⟨cap, rep, up⟩
    simp only [calculateMatchScore, amendedClaimScore]
    split_ifs <;> (first | rfl | (congr 1; ring))
  · norm_num [calculateMatchScore, exReqScenario, exCapScenario, jsOrNum]

/-! Claim C9 — proof hash determinism. -/

/-- C9: `generateProofHash` is a deterministic pure function of the payload
(equal payloads hash equally), and `verifyProofHash h d` holds exactly when
`h` is the recomputed `generateProofHash d`. -/
theorem proofHash_deterministic_and_verify :
    (∀ d₁ d₂ : Json, d₁ = d₂ →
      VerificationService.generateProofHash d₁ =
        VerificationService.generateProofHash d₂) ∧
    (∀ (h : String) (d : Json),
      VerificationService.verifyProofHash h d = true ↔
        h = VerificationService.generateProofHash d) := by
  refine ⟨fun d₁ d₂ h => by rw [h], fun h d => ?_⟩
  simp [VerificationService.verifyProofHash]

/-- C9 witness: the theorem applied at a concrete payload. -/
theorem proofHash_deterministic_and_verify_witness :
    VerificationService.generateProofHash (Json.obj [("result", Json.str "ok")]) =
      VerificationService.generateProofHash (Json.obj [("result", Json.str "ok")]) ∧
    VerificationService.verifyProofHash
      (VerificationService.generateProofHash (Json.obj [("result", Json.str "ok")]))
      (Json.obj [("result", Json.str "ok")]) = true :=
  ⟨proofHash_deterministic_and_verify.1 _ _ rfl,
   (proofHash_deterministic_and_verify.2 _ _).mpr rfl⟩

/-! Claim C8 — cancelMatch: any caller, match cancelled, request untouched. -/

/-- C8: for an existing match (with its joined request and provider rows)
and an arbitrary caller — no ownership check is made — `cancelMatch`
succeeds, sets the match's status to `cancelled`, and leaves the
`compute_requests` table (hence the parent request's status) and every
other table unchanged. -/
theorem cancelMatch_spec (db : DB) (matchId caller : String) (now : Nat)
    (m : MatchRow) (hm : MatchModel.findById db matchId = some m) :
    ∃ db2,
      MatchingService.cancelMatch db matchId caller now =
        .ok (some { m with status := "cancelled", updated_at := now }, db2) ∧
      db2.requests = db.requests ∧
      db2.transactions = db.transactions ∧
      db2.agents = db.agents ∧
      db2.capabilities = db.capabilities ∧
      db2.verifications = db.verifications ∧
      db2.matchRows = db.matchRows.map fun x =>
        if x.id == matchId then { x with status := "cancelled", updated_at := now }
        else x := by
  have hfind := findById_eq_some hm
  have hrow : (db.matchRows.map fun x =>
      if x.id == matchId then { x with status := "cancelled", updated_at := now }
      else x).find? (fun x => x.id == matchId) =
      some { m with status := "cancelled", updated_at := now } := by
    rw [find?_map_guard db.matchRows (fun x => x.id == matchId)
      (fun x => { x with status := "cancelled", updated_at := now })
      (fun a => rfl), hfind]
    rfl
  refine ⟨{ db with matchRows := db.matchRows.map fun x =>
      if x.id == matchId then { x with status := "cancelled", updated_at := now }
      else x }, ?_, rfl, rfl, rfl, rfl, rfl, rfl⟩
  simp only [MatchingService.cancelMatch, hm, MatchModel.update]
  rw [hrow]

/-- C8 witness: a concrete store exercising the theorem, with a caller who
is neither the provider nor the requester. -/
def exDbC8 : DB :=
  { agents := [{ id := "p1", name := "prov", reputation_score := some 5,
                 uptime_percentage := none }]
    capabilities := []
    requests := [{ id := "r1", requester_id := "rq1", gpu_count := 1,
                   gpu_type := "H100", duration_hours := 1,
                   max_price_per_hour := 2, status := "in_progress",
                   updated_at := 0 }]
    matchRows := [{ id := "m1", request_id := "r1", provider_id := "p1",
                    capability_id := none, agreed_price_per_hour := 1,
                    status := "accepted", start_time := none,
                    end_time := none, updated_at := 0 }]
    transactions := []
    verifications := [] }

/-- C8 witness: the theorem applied to `exDbC8` with an unrelated caller. -/
theorem cancelMatch_spec_witness :
    ∃ db2,
      MatchingService.cancelMatch exDbC8 "m1" "someone-else" 7 =
        .ok (some { id := "m1", request_id := "r1", provider_id := "p1",
                    capability_id := none, agreed_price_per_hour := 1,
                    status := "cancelled", start_time := none,
                    end_time := none, updated_at := 7 }, db2) ∧
      db2.requests = exDbC8.requests ∧
      db2.transactions = exDbC8.transactions ∧
      db2.agents = exDbC8.agents ∧
      db2.capabilities = exDbC8.capabilities ∧
      db2.verifications = exDbC8.verifications ∧
      db2.matchRows = exDbC8.matchRows.map fun x =>
        if x.id == "m1" then { x with status := "cancelled", updated_at := 7 }
        else x :=
  cancelMatch_spec exDbC8 "m1" "someone-else" 7 _ rfl

/-! Claim C7 — autoMatch with no passing candidate. -/

/-- C7: on an existing `pending` request for which no capability row passes
the discovery filter, `autoMatch` returns `ok none` (a legitimate
no-match outcome, not an error) and the store is left completely
unchanged — no match row is inserted and the request's status is still
`pending`. -/
theorem autoMatch_no_candidates (db : DB) (rid newId : String) (now : Nat)
    (r : RequestRow)
    (hr : ComputeRequestModel.findById db rid = some r)
    (hstatus : r.status = "pending")
    (hnone : ∀ pc ∈ db.capabilities,
      passesFilter r.gpu_count r.gpu_type r.max_price_per_hour none pc = false) :
    MatchingService.autoMatch db rid newId now = .ok (none, db) ∧
    (db.requests.find? fun x => x.id == rid).map (fun x => x.status) =
      some "pending" := by
  have hfilter : db.capabilities.filter
      (passesFilter r.gpu_count r.gpu_type r.max_price_per_hour none) = [] :=
    List.filter_eq_nil_iff.mpr (fun a ha => by simp [hnone a ha])
  have hsearch : ProviderCapability.search db r.gpu_count r.gpu_type
      r.max_price_per_hour none = [] := by
    unfold ProviderCapability.search
    rw [hfilter]
    rfl
  constructor
  · unfold MatchingService.autoMatch
    rw [hr]
    simp only [MatchingService.findMatches, RequestRow.toScoreRequest, hsearch]
    rfl
  · have hfind : db.requests.find? (fun x => x.id == rid) = some r := hr
    rw [hfind, Option.map_some', hstatus]

/-- C7 witness store: one pending request, one capability that fails the
filter (wrong GPU type), its provider agent. -/
def exDbC7 : DB :=
  { agents := [{ id := "p1", name := "prov", reputation_score := some 5,
                 uptime_percentage := none }]
    capabilities := [{ id := "c1", provider_id := "p1", gpu_count := 4,
                       gpu_type := "A100", cpu_cores := 8, memory_gb := 64,
                       price_per_hour := 1, available_hours := 10,
                       region := none, availability_status := "available" }]
    requests := [{ id := "r1", requester_id := "rq1", gpu_count := 1,
                   gpu_type := "H100", duration_hours := 1,
                   max_price_per_hour := 2, status := "pending",
                   updated_at := 0 }]
    matchRows := []
    transactions := []
    verifications := [] }

/-- C7 witness: the theorem applied to `exDbC7`. -/
theorem autoMatch_no_candidates_witness :
    MatchingService.autoMatch exDbC7 "r1" "new-match" 9 = .ok (none, exDbC7) ∧
    (exDbC7.requests.find? fun x => x.id == "r1").map (fun x => x.status) =
      some "pending" :=
  autoMatch_no_candidates exDbC7 "r1" "new-match" 9 _ rfl rfl (by decide)

/-! Claim C1 — accept/complete guards. -/

/-- C1 (amended): `acceptMatch` and `completeMatch` guard only on existence
(`Match not found`) and on the caller being the match's provider
(`Unauthorized: ...`); there is no check of the match's prior status and no
`Conflict` outcome — with the right caller both succeed from any prior
status, setting `accepted`/`in_progress` resp. `completed`/`completed`. -/
theorem acceptMatch_completeMatch_guards (db : DB) (matchId caller : String)
    (now : Nat) :
    (MatchModel.findById db matchId = none →
      MatchingService.acceptMatch db matchId caller now =
        .error "Match not found" ∧
      MatchingService.completeMatch db matchId caller now =
        .error "Match not found") ∧
    (∀ m, MatchModel.findById db matchId = some m →
      (caller ≠ m.provider_id →
        MatchingService.acceptMatch db matchId caller now =
          .error "Unauthorized: Only the provider can accept this match" ∧
        MatchingService.completeMatch db matchId caller now =
          .error "Unauthorized: Only the provider can complete this match") ∧
      (caller = m.provider_id →
        (∃ db2,
          MatchingService.acceptMatch db matchId caller now =
            .ok (some { m with status := "accepted",
                               start_time := some now,
                               updated_at := now }, db2) ∧
          db2.matchRows = db.matchRows.map (fun x =>
            if x.id == matchId then
              { x with status := "accepted", start_time := some now,
                       updated_at := now }
            else x) ∧
          db2.requests = db.requests.map (fun x =>
            if x.id == m.request_id then
              { x with status := "in_progress", updated_at := now }
            else x)) ∧
        (∃ db2,
          MatchingService.completeMatch db matchId caller now =
            .ok (some { m with status := "completed",
                               end_time := some now,
                               updated_at := now }, db2) ∧
          db2.matchRows = db.matchRows.map (fun x =>
            if x.id == matchId then
              { x with status := "completed", end_time := some now,
                       updated_at := now }
            else x) ∧
          db2.requests = db.requests.map (fun x =>
            if x.id == m.request_id then
              { x with status := "completed", updated_at := now }
            else x)))) := by
  constructor
  · intro hnone
    constructor
    · simp only [MatchingService.acceptMatch, hnone]
    · simp only [MatchingService.completeMatch, hnone]
  · intro m hm
    have hfind := findById_eq_some hm
    constructor
    · intro hne
      have hne' : m.provider_id ≠ caller := fun h => hne h.symm
      constructor
      · simp only [MatchingService.acceptMatch, hm, if_pos hne']
      · simp only [MatchingService.completeMatch, hm, if_pos hne']
    · intro heq
      have heq' : ¬ m.provider_id ≠ caller := by simp [heq]
      constructor
      · have hrow : (db.matchRows.map fun x =>
            if x.id == matchId then
              { x with status := "accepted", start_time := some now,
                       updated_at := now }
            else x).find? (fun x => x.id == matchId) =
            some { m with status := "accepted", start_time := some now,
                          updated_at := now } := by
          rw [find?_map_guard db.matchRows (fun x => x.id == matchId)
            (fun x => { x with status := "accepted", start_time := some now,
                               updated_at := now })
            (fun a => rfl), hfind]
          rfl
        refine ⟨{ db with
            matchRows := db.matchRows.map fun x =>
              if x.id == matchId then
                { x with status := "accepted", start_time := some now,
                         updated_at := now }
              else x
            requests := db.requests.map fun x =>
              if x.id == m.request_id then
                { x with status := "in_progress", updated_at := now }
              else x }, ?_, rfl, rfl⟩
        simp only [MatchingService.acceptMatch, hm, if_neg heq',
          MatchModel.update, ComputeRequestModel.update]
        rw [hrow]
      · have hrow : (db.matchRows.map fun x =>
            if x.id == matchId then
              { x with status := "completed", end_time := some now,
                       updated_at := now }
            else x).find? (fun x => x.id == matchId) =
            some { m with status := "completed", end_time := some now,
                          updated_at := now } := by
          rw [find?_map_guard db.matchRows (fun x => x.id == matchId)
            (fun x => { x with status := "completed", end_time := some now,
                               updated_at := now })
            (fun a => rfl), hfind]
          rfl
        refine ⟨{ db with
            matchRows := db.matchRows.map fun x =>
              if x.id == matchId then
                { x with status := "completed", end_time := some now,
                         updated_at := now }
              else x
            requests := db.requests.map fun x =>
              if x.id == m.request_id then
                { x with status := "completed", updated_at := now }
              else x }, ?_, rfl, rfl⟩
        simp only [MatchingService.completeMatch, hm, if_neg heq',
          MatchModel.update, ComputeRequestModel.update]
        rw [hrow]

/-- Store for the C1 counterexample and witness: a match that is already
`completed`, with its request and provider agent rows. -/
def exDbC1 : DB :=
  { agents := [{ id := "p1", name := "prov", reputation_score := some 5,
                 uptime_percentage := none }]
    capabilities := []
    requests := [{ id := "r1", requester_id := "rq1", gpu_count := 1,
                   gpu_type := "H100", duration_hours := 1,
                   max_price_per_hour := 2, status := "completed",
                   updated_at := 0 }]
    matchRows := [{ id := "m1", request_id := "r1", provider_id := "p1",
                    capability_id := none, agreed_price_per_hour := 1,
                    status := "completed", start_time := none,
                    end_time := none, updated_at := 0 }]
    transactions := []
    verifications := [] }

/-- C1 counterexample: the match `m1` is in prior status `completed` — not
`proposed` — yet `acceptMatch` called by the provider succeeds instead of
failing with a `Conflict`. -/
theorem acceptMatch_no_conflict_counterexample :
    (exDbC1.matchRows.find? fun x => x.id == "m1").map (fun x => x.status) =
      some "completed" ∧
    (MatchingService.acceptMatch exDbC1 "m1" "p1" 5).isOk = true := by
  decide

/-- C1 witness: the theorem applied to `exDbC1` for both a wrong caller
(Unauthorized) and the provider (success from a non-`proposed` status). -/
theorem acceptMatch_completeMatch_guards_witness :
    (MatchingService.acceptMatch exDbC1 "m1" "intruder" 5 =
      .error "Unauthorized: Only the provider can accept this match") ∧
    (∃ db2,
      MatchingService.acceptMatch exDbC1 "m1" "p1" 5 =
        .ok (some { id := "m1", request_id := "r1", provider_id := "p1",
                    capability_id := none, agreed_price_per_hour := 1,
                    status := "accepted", start_time := some 5,
                    end_time := none, updated_at := 5 }, db2) ∧
      db2.matchRows = exDbC1.matchRows.map (fun x =>
        if x.id == "m1" then
          { x with status := "accepted", start_time := some 5, updated_at := 5 }
        else x) ∧
      db2.requests = exDbC1.requests.map (fun x =>
        if x.id == "r1" then
          { x with status := "in_progress", updated_at := 5 }
        else x)) :=
  ⟨(((acceptMatch_completeMatch_guards exDbC1 "m1" "intruder" 5).2 _ rfl).1
      (by decide)).1,
   ((((acceptMatch_completeMatch_guards exDbC1 "m1" "p1" 5).2 _ rfl).2
      rfl).1)⟩

/-! Claims C5 and C10 — verifyWork. -/

/-- C5: `verifyWork` fails with the not-found error when the verification
row is absent; on an existing verification with `approved = true` it
updates the verification row and cascades: the associated transaction's
status becomes `verified` (not `settled` or `refunded` — no
`releasePayment` happens; the function never touches the payment
processor) and the parent match's status becomes `completed`.  The
transaction and match rows are assumed present, as the schema's foreign
keys guarantee. -/
theorem verifyWork_spec (db : DB) (vid verifier notes0 : String) (now : Nat) :
    (db.verifications.find? (fun x => x.id == vid) = none →
      VerificationService.verifyWork db vid verifier true notes0 now =
        .error "Work verification failed: Verification not found") ∧
    (∀ v tx m,
      db.verifications.find? (fun x => x.id == vid) = some v →
      db.transactions.find? (fun t => t.id == v.transaction_id) = some tx →
      db.matchRows.find? (fun x => x.id == tx.match_id) = some m →
      ∃ db3,
        VerificationService.verifyWork db vid verifier true notes0 now =
          .ok (some { v with verified := true, verifier_id := some verifier,
                             notes := some notes0, updated_at := now }, db3) ∧
        (db3.transactions.find? fun t => t.id == v.transaction_id).map
          (fun t => t.status) = some "verified" ∧
        (db3.matchRows.find? fun x => x.id == tx.match_id).map
          (fun x => x.status) = some "completed" ∧
        db3.requests = db.requests ∧
        db3.verifications = db.verifications.map (fun x =>
          if x.id == vid then
            { x with verified := true, verifier_id := some verifier,
                     notes := some notes0, updated_at := now }
          else x)) := by
  constructor
  · intro h
    simp only [VerificationService.verifyWork, h]
  · intro v tx m hv htx hm
    have hverifs : (db.verifications.map fun x =>
        if x.id == vid then
          { x with verified := true, verifier_id := some verifier,
                   notes := some notes0, updated_at := now }
        else x).find? (fun x => x.id == vid) =
        some { v with verified := true, verifier_id := some verifier,
                      notes := some notes0, updated_at := now } := by
      rw [find?_map_guard db.verifications (fun x => x.id == vid)
        (fun x => { x with verified := true, verifier_id := some verifier,
                           notes := some notes0, updated_at := now })
        (fun a => rfl), hv]
      rfl
    have htx2 : (db.transactions.map fun t =>
        if t.id == v.transaction_id then
          { t with status := "verified", updated_at := now }
        else t).find? (fun t => t.id == v.transaction_id) =
        some { tx with status := "verified", updated_at := now } := by
      rw [find?_map_guard db.transactions (fun t => t.id == v.transaction_id)
        (fun t => { t with status := "verified", updated_at := now })
        (fun a => rfl), htx]
      rfl
    have hmr : (db.matchRows.map fun x =>
        if x.id == tx.match_id then
          { x with status := "completed", updated_at := now }
        else x).find? (fun x => x.id == tx.match_id) =
        some { m with status := "completed", updated_at := now } := by
      rw [find?_map_guard db.matchRows (fun x => x.id == tx.match_id)
        (fun x => { x with status := "completed", updated_at := now })
        (fun a => rfl), hm]
      rfl
    refine ⟨{ db with
        matchRows := db.matchRows.map fun x =>
          if x.id == tx.match_id then
            { x with status := "completed", updated_at := now }
          else x
        transactions := db.transactions.map fun t =>
          if t.id == v.transaction_id then
            { t with status := "verified", updated_at := now }
          else t
        verifications := db.verifications.map fun x =>
          if x.id == vid then
            { x with verified := true, verifier_id := some verifier,
                     notes := some notes0, updated_at := now }
          else x }, ?_, ?_, ?_, rfl, rfl⟩
    · simp only [VerificationService.verifyWork, hv, hverifs, htx2]
      rw [if_pos trivial]
    · simp only [htx2, Option.map_some']
    · simp only [hmr, Option.map_some']

/-- C10: on an existing verification, `verifyWork` with `approved = false`
changes only the verification row (verified flag, verifier, notes,
updated_at); the transactions, matches and requests tables are unchanged
(so the transaction's and match's statuses keep their values), and the
payment processor is never touched — no refund is issued. -/
theorem verifyWork_reject_frame (db : DB) (vid verifier notes0 : String)
    (now : Nat) (v : VerifRow)
    (hv : db.verifications.find? (fun x => x.id == vid) = some v) :
    ∃ db2,
      VerificationService.verifyWork db vid verifier false notes0 now =
        .ok (some { v with verified := false, verifier_id := some verifier,
                           notes := some notes0, updated_at := now }, db2) ∧
      db2.transactions = db.transactions ∧
      db2.matchRows = db.matchRows ∧
      db2.requests = db.requests ∧
      db2.agents = db.agents ∧
      db2.capabilities = db.capabilities ∧
      db2.verifications = db.verifications.map (fun x =>
        if x.id == vid then
          { x with verified := false, verifier_id := some verifier,
                   notes := some notes0, updated_at := now }
        else x) := by
  have hverifs : (db.verifications.map fun x =>
      if x.id == vid then
        { x with verified := false, verifier_id := some verifier,
                 notes := some notes0, updated_at := now }
      else x).find? (fun x => x.id == vid) =
      some { v with verified := false, verifier_id := some verifier,
                    notes := some notes0, updated_at := now } := by
    rw [find?_map_guard db.verifications (fun x => x.id == vid)
      (fun x => { x with verified := false, verifier_id := some verifier,
                         notes := some notes0, updated_at := now })
      (fun a => rfl), hv]
    rfl
  refine ⟨{ db with verifications := db.verifications.map fun x =>
      if x.id == vid then
        { x with verified := false, verifier_id := some verifier,
                 notes := some notes0, updated_at := now }
      else x }, ?_, rfl, rfl, rfl, rfl, rfl, rfl⟩
  simp only [VerificationService.verifyWork, hv, hverifs]
  rfl

/-- Store for the verifyWork witnesses: verification `v1` on transaction
`t1` (escrowed) on match `m1`. -/
def exDbC5 : DB :=
  { agents := []
    capabilities := []
    requests := []
    matchRows := [{ id := "m1", request_id := "r1", provider_id := "p1",
                    capability_id := none, agreed_price_per_hour := 1,
                    status := "accepted", start_time := none,
                    end_time := none, updated_at := 0 }]
    transactions := [{ id := "t1", match_id := "m1", requester_id := "rq1",
                       provider_id := "p1", amount := 10, currency := "USD",
                       status := "escrowed", payment_method := some "stripe",
                       transaction_hash := some "pi_1", updated_at := 0 }]
    verifications := [{ id := "v1", transaction_id := "t1",
                        verifier_id := some "p1",
                        proof_hash := some "h", proof_data := none,
                        verified := false, notes := none, updated_at := 0 }] }

/-- C5 witness: the theorem applied to `exDbC5` (and, for the not-found
conjunct, to a store with no verifications). -/
theorem verifyWork_spec_witness :
    (VerificationService.verifyWork
      { exDbC5 with verifications := [] } "v1" "rq1" true "ok" 3 =
        .error "Work verification failed: Verification not found") ∧
    (∃ db3,
      VerificationService.verifyWork exDbC5 "v1" "rq1" true "ok" 3 =
        .ok (some { id := "v1", transaction_id := "t1",
                    verifier_id := some "rq1", proof_hash := some "h",
                    proof_data := none, verified := true,
                    notes := some "ok", updated_at := 3 }, db3) ∧
      (db3.transactions.find? fun t => t.id == "t1").map
        (fun t => t.status) = some "verified" ∧
      (db3.matchRows.find? fun x => x.id == "m1").map
        (fun x => x.status) = some "completed" ∧
      db3.requests = exDbC5.requests ∧
      db3.verifications = exDbC5.verifications.map (fun x =>
        if x.id == "v1" then
          { x with verified := true, verifier_id := some "rq1",
                   notes := some "ok", updated_at := 3 }
        else x)) :=
  ⟨(verifyWork_spec { exDbC5 with verifications := [] } "v1" "rq1" "ok" 3).1 rfl,
   (verifyWork_spec exDbC5 "v1" "rq1" "ok" 3).2 _ _ _ rfl rfl rfl⟩

/-- C10 witness: the theorem applied to `exDbC5`. -/
theorem verifyWork_reject_frame_witness :
    ∃ db2,
      VerificationService.verifyWork exDbC5 "v1" "rq1" false "bad output" 3 =
        .ok (some { id := "v1", transaction_id := "t1",
                    verifier_id := some "rq1", proof_hash := some "h",
                    proof_data := none, verified := false,
                    notes := some "bad output", updated_at := 3 }, db2) ∧
      db2.transactions = exDbC5.transactions ∧
      db2.matchRows = exDbC5.matchRows ∧
      db2.requests = exDbC5.requests ∧
      db2.agents = exDbC5.agents ∧
      db2.capabilities = exDbC5.capabilities ∧
      db2.verifications = exDbC5.verifications.map (fun x =>
        if x.id == "v1" then
          { x with verified := false, verifier_id := some "rq1",
                   notes := some "bad output", updated_at := 3 }
        else x) :=
  verifyWork_reject_frame exDbC5 "v1" "rq1" "bad output" 3 _ rfl

/-! Claim C2 — the escrow round trip. -/

/-- Looking up a freshly appended row finds exactly that row. -/
theorem find?_append_fresh {α : Type} (l : List α) (x : α) (p : α → Bool)
    (h : l.find? p = none) (hx : p x = true) :
    (l ++ [x]).find? p = some x := by
  rw [List.find?_append, h]
  simp [List.find?_cons, hx]

/-- C2: starting from a store and processor in which the transaction id and
intent id are fresh, `createPaymentIntent` leaves the transaction
`pending`; after the processor reports success, `confirmPayment` moves the
same transaction to `escrowed` (and only then); `releasePayment` with
`verified = true` then moves it to `settled` without touching the
processor's refunds — the row passes through pending, escrowed, settled in
order, skipping none.  Separately, `releasePayment` with `verified = false`
on any stored (escrowed) transaction sets it to `refunded` and issues
exactly one processor refund call, against the stored reference. -/
theorem escrow_round_trip (db : DB) (s : StripeState) (matchId : String)
    (amount : ℚ) (reqId provId intentId secret txId : String)
    (t1 t2 t3 : Nat)
    (hftx : db.transactions.find? (fun t => t.id == txId) = none)
    (hfint : s.intents.find? (fun i => i.id == intentId) = none) :
    ((PaymentService.createPaymentIntent db s matchId amount reqId provId
        intentId secret txId t1).1.status = "pending") ∧
    (((PaymentService.createPaymentIntent db s matchId amount reqId provId
        intentId secret txId t1).2.1.transactions.find?
          fun t => t.id == txId).map (fun t => t.status) = some "pending") ∧
    (∃ tx2 db2,
      PaymentService.confirmPayment
        (PaymentService.createPaymentIntent db s matchId amount reqId provId
          intentId secret txId t1).2.1
        (StripeState.succeed
          (PaymentService.createPaymentIntent db s matchId amount reqId provId
            intentId secret txId t1).2.2 intentId)
        intentId txId t2 = .ok (tx2, db2) ∧
      tx2.status = "escrowed" ∧
      (db2.transactions.find? fun t => t.id == txId).map (fun t => t.status) =
        some "escrowed" ∧
      (∃ tx3 db3 s3,
        PaymentService.releasePayment db2
          (StripeState.succeed
            (PaymentService.createPaymentIntent db s matchId amount reqId provId
              intentId secret txId t1).2.2 intentId)
          txId true t3 = .ok (some tx3, db3, s3) ∧
        tx3.status = "settled" ∧
        (db3.transactions.find? fun t => t.id == txId).map (fun t => t.status) =
          some "settled" ∧
        s3.refunds = (StripeState.succeed
          (PaymentService.createPaymentIntent db s matchId amount reqId provId
            intentId secret txId t1).2.2 intentId).refunds)) ∧
    (∀ (db' : DB) (s' : StripeState) (tid : String) (t : TxRow) (now' : Nat),
      db'.transactions.find? (fun x => x.id == tid) = some t →
      t.status = "escrowed" →
      ∃ tr dbr sr,
        PaymentService.releasePayment db' s' tid false now' =
          .ok (some tr, dbr, sr) ∧
        tr.status = "refunded" ∧
        sr.refunds = s'.refunds ++ [t.transaction_hash] ∧
        (dbr.transactions.find? fun x => x.id == tid).map (fun x => x.status) =
          some "refunded") := by
  have hT0 : (db.transactions ++
      [({ id := txId, match_id := matchId, requester_id := reqId,
          provider_id := provId, amount := amount, currency := "USD",
          status := "pending", payment_method := some "stripe",
          transaction_hash := none, updated_at := t1 } : TxRow)]).find?
        (fun t => t.id == txId) =
      some { id := txId, match_id := matchId, requester_id := reqId,
             provider_id := provId, amount := amount, currency := "USD",
             status := "pending", payment_method := some "stripe",
             transaction_hash := none, updated_at := t1 } :=
    find?_append_fresh _ _ _ hftx (by simp)
  refine ⟨rfl, ?_, ?_, ?_⟩
  · simp only [PaymentService.createPaymentIntent]
    rw [hT0]
    rfl
  · -- the confirm and settle steps
    have hInt : ((s.intents ++
        [({ id := intentId, status := "requires_payment_method",
            amount := jsRound (amount * 100), client_secret := secret }
          : StripeIntent)]).map fun i =>
          if i.id == intentId then { i with status := "succeeded" } else i).find?
          (fun i => i.id == intentId) =
        some { id := intentId, status := "succeeded",
               amount := jsRound (amount * 100), client_secret := secret } := by
      rw [find?_map_guard _ (fun (i : StripeIntent) => i.id == intentId)
        (fun i => { i with status := "succeeded" }) (fun a => rfl)]
      rw [List.find?_append, hfint]
      simp [List.find?_cons]
    have hconf : ((db.transactions ++
        [({ id := txId, match_id := matchId, requester_id := reqId,
            provider_id := provId, amount := amount, currency := "USD",
            status := "pending", payment_method := some "stripe",
            transaction_hash := none, updated_at := t1 } : TxRow)]).map fun t =>
          if t.id == txId then
            { t with status := "escrowed", transaction_hash := some intentId,
                     updated_at := t2 }
          else t).find? (fun t => t.id == txId) =
        some { id := txId, match_id := matchId, requester_id := reqId,
               provider_id := provId, amount := amount, currency := "USD",
               status := "escrowed", payment_method := some "stripe",
               transaction_hash := some intentId, updated_at := t2 } := by
      rw [find?_map_guard _ (fun (t : TxRow) => t.id == txId)
        (fun t => { t with status := "escrowed",
                           transaction_hash := some intentId,
                           updated_at := t2 }) (fun a => rfl), hT0]
      rfl
    refine ⟨{ id := txId, match_id := matchId, requester_id := reqId,
              provider_id := provId, amount := amount, currency := "USD",
              status := "escrowed", payment_method := some "stripe",
              transaction_hash := some intentId, updated_at := t2 },
            { db with transactions := ((db.transactions ++
                [({ id := txId, match_id := matchId, requester_id := reqId,
                    provider_id := provId, amount := amount, currency := "USD",
                    status := "pending", payment_method := some "stripe",
                    transaction_hash := none, updated_at := t1 } : TxRow)]).map
                (fun t =>
                  if t.id == txId then
                    { t with status := "escrowed",
                             transaction_hash := some intentId,
                             updated_at := t2 }
                  else t)) }, ?_, rfl, ?_, ?_⟩
    · simp only [PaymentService.confirmPayment, PaymentService.createPaymentIntent,
        StripeState.succeed, hInt, hconf]
      rw [if_neg (by simp)]
    · simp only [hconf, Option.map_some']
    · have hsettle : (((db.transactions ++
          [({ id := txId, match_id := matchId, requester_id := reqId,
              provider_id := provId, amount := amount, currency := "USD",
              status := "pending", payment_method := some "stripe",
              transaction_hash := none, updated_at := t1 } : TxRow)]).map fun t =>
            if t.id == txId then
              { t with status := "escrowed", transaction_hash := some intentId,
                       updated_at := t2 }
            else t).map fun t =>
            if t.id == txId then { t with status := "settled", updated_at := t3 }
            else t).find? (fun t => t.id == txId) =
          some { id := txId, match_id := matchId, requester_id := reqId,
                 provider_id := provId, amount := amount, currency := "USD",
                 status := "settled", payment_method := some "stripe",
                 transaction_hash := some intentId, updated_at := t3 } := by
        rw [find?_map_guard _ (fun (t : TxRow) => t.id == txId)
          (fun t => { t with status := "settled", updated_at := t3 })
          (fun a => rfl), hconf]
        rfl
      refine ⟨{ id := txId, match_id := matchId, requester_id := reqId,
                provider_id := provId, amount := amount, currency := "USD",
                status := "settled", payment_method := some "stripe",
                transaction_hash := some intentId, updated_at := t3 },
              { db with transactions := (((db.transactions ++
                  [({ id := txId, match_id := matchId, requester_id := reqId,
                      provider_id := provId, amount := amount, currency := "USD",
                      status := "pending", payment_method := some "stripe",
                      transaction_hash := none, updated_at := t1 } : TxRow)]).map
                  (fun t =>
                    if t.id == txId then
                      { t with status := "escrowed",
                               transaction_hash := some intentId,
                               updated_at := t2 }
                    else t)).map (fun t =>
                    if t.id == txId then
                      { t with status := "settled", updated_at := t3 }
                    else t)) },
              StripeState.succeed
                (PaymentService.createPaymentIntent db s matchId amount reqId
                  provId intentId secret txId t1).2.2 intentId,
              ?_, rfl, ?_, rfl⟩
      · simp only [PaymentService.releasePayment, Bool.not_true, hsettle]
        rfl
      · simp only [hsettle, Option.map_some']
  · intro db' s' tid t now' hfind hesc
    have hrows : (db'.transactions.map fun x =>
        if x.id == tid then { x with status := "refunded", updated_at := now' }
        else x).find? (fun x => x.id == tid) =
        some { t with status := "refunded", updated_at := now' } := by
      rw [find?_map_guard db'.transactions (fun x => x.id == tid)
        (fun x => { x with status := "refunded", updated_at := now' })
        (fun a => rfl), hfind]
      rfl
    refine ⟨{ t with status := "refunded", updated_at := now' },
            { db' with transactions := (db'.transactions.map (fun x =>
                if x.id == tid then
                  { x with status := "refunded", updated_at := now' }
                else x)) },
            { s' with refunds := s'.refunds ++ [t.transaction_hash] },
            ?_, rfl, rfl, ?_⟩
    · simp only [PaymentService.releasePayment, Bool.not_false, hfind, hrows]
      rfl
    · simp only [hrows, Option.map_some']

/-- The empty store. -/
def exDb0 : DB :=
  { agents := [], capabilities := [], requests := [], matchRows := [],
    transactions := [], verifications := [] }

/-- The empty processor state. -/
def exStripe0 : StripeState := { intents := [], refunds := [] }

/-- C2 witness: the round-trip theorem applied from the empty store, and
its refund branch applied to the escrowed transaction of `exDbC5`. -/
theorem escrow_round_trip_witness :
    ((PaymentService.createPaymentIntent exDb0 exStripe0 "m1" 10 "rq1" "p1"
        "pi_1" "sec" "tx1" 1).1.status = "pending") ∧
    (∃ tr dbr sr,
      PaymentService.releasePayment exDbC5 exStripe0 "t1" false 4 =
        .ok (some tr, dbr, sr) ∧
      tr.status = "refunded" ∧
      sr.refunds = exStripe0.refunds ++ [some "pi_1"] ∧
      (dbr.transactions.find? fun x => x.id == "t1").map (fun x => x.status) =
        some "refunded") :=
  ⟨(escrow_round_trip exDb0 exStripe0 "m1" 10 "rq1" "p1" "pi_1" "sec" "tx1"
      1 2 3 rfl rfl).1,
   (escrow_round_trip exDb0 exStripe0 "m1" 10 "rq1" "p1" "pi_1" "sec" "tx1"
      1 2 3 rfl rfl).2.2.2 exDbC5 exStripe0 "t1"
      { id := "t1", match_id := "m1", requester_id := "rq1",
        provider_id := "p1", amount := 10, currency := "USD",
        status := "escrowed", payment_method := some "stripe",
        transaction_hash := some "pi_1", updated_at := 0 } 4 rfl rfl⟩

/-! Claim C6 — rejection of non-positive amounts. -/

/-- C6 counterexample: `PaymentService.createPaymentIntent` itself performs
no amount validation.  Called with `amount = 0` it does not fail with any
`InvalidInput`: it opens a processor hold (one new intent) and persists a
`pending` transaction row. -/
theorem createPaymentIntent_no_validation_counterexample :
    ((PaymentService.createPaymentIntent exDb0 exStripe0 "m1" 0 "rq1" "p1"
        "pi_1" "sec" "tx1" 1).1.status = "pending") ∧
    ((PaymentService.createPaymentIntent exDb0 exStripe0 "m1" 0 "rq1" "p1"
        "pi_1" "sec" "tx1" 1).2.1.transactions.map (fun t => t.status) =
      ["pending"]) ∧
    ((PaymentService.createPaymentIntent exDb0 exStripe0 "m1" 0 "rq1" "p1"
        "pi_1" "sec" "tx1" 1).2.2.intents.length = 1) := by
  refine ⟨rfl, rfl, rfl⟩

/-- C6 (amended): for `amount ≤ 0` the rejection happens at the HTTP
boundary, not in the payment service — the `create-intent` route answers
400 (`amount = 0` already trips the missing-field falsiness check,
`amount < 0` the positivity check) and leaves both the store and the
processor untouched; the service itself, called directly, performs no
validation and proceeds to open the hold and insert the `pending` row. -/
theorem createIntent_amount_validation (db : DB) (s : StripeState)
    (mid : String) (a : ℚ) (agentId reqId provId intentId secret txId : String)
    (now : Nat) (ha : a ≤ 0) :
    (∃ msg, PaymentRoutes.createIntent db s (some mid) (some a) agentId
        intentId secret txId now = (.badRequest msg, db, s)) ∧
    ((PaymentService.createPaymentIntent db s mid a reqId provId intentId
        secret txId now).1.status = "pending" ∧
     (PaymentService.createPaymentIntent db s mid a reqId provId intentId
        secret txId now).2.1.transactions =
       db.transactions ++
         [{ id := txId, match_id := mid, requester_id := reqId,
            provider_id := provId, amount := a, currency := "USD",
            status := "pending", payment_method := some "stripe",
            transaction_hash := none, updated_at := now }] ∧
     (PaymentService.createPaymentIntent db s mid a reqId provId intentId
        secret txId now).2.2.intents =
       s.intents ++
         [{ id := intentId, status := "requires_payment_method",
            amount := jsRound (a * 100), client_secret := secret }]) := by
  refine ⟨?_, rfl, rfl, rfl⟩
  by_cases h0 : a = 0
  · refine ⟨"Missing required fields: matchId, amount", ?_⟩
    simp [PaymentRoutes.createIntent, jsFalsyNum, h0]
  · by_cases hm : mid = ""
    · refine ⟨"Missing required fields: matchId, amount", ?_⟩
      simp [PaymentRoutes.createIntent, jsFalsyStr, hm]
    · refine ⟨"Amount must be greater than 0", ?_⟩
      simp [PaymentRoutes.createIntent, jsFalsyStr, jsFalsyNum, h0, hm, ha]

/-- C6 witness: the theorem applied at an explicit negative amount. -/
theorem createIntent_amount_validation_witness :
    (∃ msg, PaymentRoutes.createIntent exDb0 exStripe0 (some "m1") (some (-5))
        "rq1" "pi_1" "sec" "tx1" 1 = (.badRequest msg, exDb0, exStripe0)) ∧
    ((PaymentService.createPaymentIntent exDb0 exStripe0 "m1" (-5) "rq1" "p1"
        "pi_1" "sec" "tx1" 1).1.status = "pending" ∧
     (PaymentService.createPaymentIntent exDb0 exStripe0 "m1" (-5) "rq1" "p1"
        "pi_1" "sec" "tx1" 1).2.1.transactions =
       exDb0.transactions ++
         [{ id := "tx1", match_id := "m1", requester_id := "rq1",
            provider_id := "p1", amount := -5, currency := "USD",
            status := "pending", payment_method := some "stripe",
            transaction_hash := none, updated_at := 1 }] ∧
     (PaymentService.createPaymentIntent exDb0 exStripe0 "m1" (-5) "rq1" "p1"
        "pi_1" "sec" "tx1" 1).2.2.intents =
       exStripe0.intents ++
         [{ id := "pi_1", status := "requires_payment_method",
            amount := jsRound (-5 * 100), client_secret := "sec" }]) :=
  createIntent_amount_validation exDb0 exStripe0 "m1" (-5) "rq1" "rq1" "p1"
    "pi_1" "sec" "tx1" 1 (by norm_num)

/-! Claim C3 — the discovery filter. -/

/-- The claim's conjunction for one request/capability pair, exactly the
WHERE clause `search` runs with the request's fields. -/
def capPasses (req : ScoreRequest) (pc : CapRow) : Bool :=
  passesFilter req.gpu_count req.gpu_type req.max_price_per_hour req.region pc

/-- C3 (amended): under the schema's foreign-key guarantee that every
capability's provider agent exists, membership in the `search` result is
exactly the filter conjunction — capabilities failing any conjunct are
excluded entirely; `findMatches` keeps only the top `limit` of the passing
capabilities by score, so its members all pass the filter, and when at most
`limit` capabilities pass, its membership too is exactly the conjunction
(with more than `limit` passing, a passing capability can be truncated
away). -/
theorem findMatches_filter_spec (db : DB) (req : ScoreRequest) (limit : Nat)
    (cap : CapRow)
    (hfk : ∀ pc ∈ db.capabilities,
      (db.agents.find? fun a => a.id == pc.provider_id).isSome = true) :
    (cap ∈ (ProviderCapability.search db req.gpu_count req.gpu_type
        req.max_price_per_hour req.region).map SearchRow.cap ↔
      cap ∈ db.capabilities ∧ capPasses req cap = true) ∧
    (cap ∈ (MatchingService.findMatches db req limit).map (fun x => x.1.cap) →
      cap ∈ db.capabilities ∧ capPasses req cap = true) ∧
    ((db.capabilities.filter (capPasses req)).length ≤ limit →
      (cap ∈ (MatchingService.findMatches db req limit).map (fun x => x.1.cap) ↔
        cap ∈ db.capabilities ∧ capPasses req cap = true)) := by
  have hsearch : cap ∈ (ProviderCapability.search db req.gpu_count req.gpu_type
      req.max_price_per_hour req.region).map SearchRow.cap ↔
      cap ∈ db.capabilities ∧ capPasses req cap = true := by
    simp only [ProviderCapability.search]
    rw [(List.perm_insertionSort searchOrder _).map SearchRow.cap |>.mem_iff]
    constructor
    · intro h
      obtain ⟨row, hrow, hcap⟩ := List.mem_map.mp h
      obtain ⟨pc, hpc, hbuilt⟩ := List.mem_filterMap.mp hrow
      obtain ⟨a, hfa, hrow'⟩ := Option.map_eq_some'.mp hbuilt
      obtain ⟨hmem, hpass⟩ := List.mem_filter.mp hpc
      rw [← hcap, ← hrow']
      exact ⟨hmem, hpass⟩
    · rintro ⟨hmem, hpass⟩
      obtain ⟨a, hfa⟩ := Option.isSome_iff_exists.mp (hfk cap hmem)
      refine List.mem_map.mpr
        ⟨{ cap := cap
           reputation_score := a.reputation_score
           uptime_percentage := a.uptime_percentage }, ?_, rfl⟩
      refine List.mem_filterMap.mpr ⟨cap, List.mem_filter.mpr ⟨hmem, hpass⟩, ?_⟩
      rw [hfa]
      rfl
  have hforward : cap ∈ (MatchingService.findMatches db req limit).map
      (fun x => x.1.cap) → cap ∈ db.capabilities ∧ capPasses req cap = true := by
    intro h
    apply hsearch.mp
    simp only [MatchingService.findMatches] at h
    by_cases hp : (ProviderCapability.search db req.gpu_count req.gpu_type
        req.max_price_per_hour req.region).isEmpty
    · rw [if_pos hp] at h
      simp at h
    · rw [if_neg hp] at h
      obtain ⟨x, hx, hcap⟩ := List.mem_map.mp h
      have hx2 := List.mem_of_mem_take hx
      have hx3 := (List.perm_insertionSort
        (fun (a b : SearchRow × ℚ) => b.2 ≤ a.2) _).subset hx2
      obtain ⟨p, hpmem, hpx⟩ := List.mem_map.mp hx3
      refine List.mem_map.mpr ⟨p, hpmem, ?_⟩
      rw [← hcap, ← hpx]
  refine ⟨hsearch, hforward, ?_⟩
  intro hlen
  refine ⟨hforward, ?_⟩
  intro hmem
  have hsearchmem := hsearch.mpr hmem
  simp only [MatchingService.findMatches]
  by_cases hp : (ProviderCapability.search db req.gpu_count req.gpu_type
      req.max_price_per_hour req.region).isEmpty
  · rw [List.isEmpty_iff] at hp
    rw [hp] at hsearchmem
    simp at hsearchmem
  · rw [if_neg hp]
    have hlen2 : (ProviderCapability.search db req.gpu_count req.gpu_type
        req.max_price_per_hour req.region).length ≤ limit := by
      have h1 : (ProviderCapability.search db req.gpu_count req.gpu_type
          req.max_price_per_hour req.region).length =
          ((db.capabilities.filter (passesFilter req.gpu_count req.gpu_type
            req.max_price_per_hour req.region)).filterMap fun pc =>
            (db.agents.find? fun a => a.id == pc.provider_id).map fun a =>
              ({ cap := pc, reputation_score := a.reputation_score,
                 uptime_percentage := a.uptime_percentage } : SearchRow)).length := by
        simp only [ProviderCapability.search]
        exact (List.perm_insertionSort searchOrder _).length_eq
      calc (ProviderCapability.search db req.gpu_count req.gpu_type
            req.max_price_per_hour req.region).length
          = _ := h1
        _ ≤ (db.capabilities.filter (passesFilter req.gpu_count req.gpu_type
              req.max_price_per_hour req.region)).length :=
            List.length_filterMap_le _ _
        _ ≤ limit := hlen
    have htake : (((ProviderCapability.search db req.gpu_count req.gpu_type
        req.max_price_per_hour req.region).map fun p =>
          (p, calculateMatchScore req p)).insertionSort
          (fun (a b : SearchRow × ℚ) => b.2 ≤ a.2)).take limit =
        ((ProviderCapability.search db req.gpu_count req.gpu_type
          req.max_price_per_hour req.region).map fun p =>
            (p, calculateMatchScore req p)).insertionSort
            (fun (a b : SearchRow × ℚ) => b.2 ≤ a.2) := by
      apply List.take_of_length_le
      rw [(List.perm_insertionSort (fun (a b : SearchRow × ℚ) => b.2 ≤ a.2)
        _).length_eq, List.length_map]
      exact hlen2
    rw [htake]
    obtain ⟨p, hpmem, hpcap⟩ := List.mem_map.mp hsearchmem
    refine List.mem_map.mpr ⟨(p, calculateMatchScore req p), ?_, hpcap⟩
    exact (List.perm_insertionSort (fun (a b : SearchRow × ℚ) => b.2 ≤ a.2)
      _).mem_iff.mpr (List.mem_map.mpr ⟨p, hpmem, rfl⟩)

/-- One of eleven identical passing capabilities (distinct ids only). -/
def mkCapC3 (i : Nat) : CapRow :=
  { id := toString i, provider_id := "p1", gpu_count := 8, gpu_type := "H100",
    cpu_cores := 8, memory_gb := 64, price_per_hour := 1,
    available_hours := 10, region := none,
    availability_status := "available" }

/-- Store with eleven capabilities all passing the filter. -/
def exDbC3 : DB :=
  { agents := [{ id := "p1", name := "prov", reputation_score := some 5,
                 uptime_percentage := none }]
    capabilities := (List.range 11).map mkCapC3
    requests := []
    matchRows := []
    transactions := []
    verifications := [] }

/-- Request that all eleven capabilities satisfy. -/
def exReqC3 : ScoreRequest :=
  { gpu_count := 8, gpu_type := "H100", max_price_per_hour := 2,
    duration_hours := 1, region := none }

/-- C3 counterexample: on the concrete store `exDbC3` (eleven distinct
capabilities, every one passing every filter conjunct) and the request
`exReqC3`, `findMatches` with the default limit 10 returns at most ten
rows, so the claimed equivalence "appears in the findMatches result iff the
filter conjunction holds" is false: some passing capability is missing from
the result. -/
theorem findMatches_not_iff_counterexample :
    ¬ (∀ cap : CapRow,
        cap ∈ (MatchingService.findMatches exDbC3 exReqC3 10).map
          (fun x => x.1.cap) ↔
        cap ∈ exDbC3.capabilities ∧ capPasses exReqC3 cap = true) := by
  intro hiff
  have hpass : ∀ c ∈ exDbC3.capabilities, capPasses exReqC3 c = true := by
    decide
  have hsub : exDbC3.capabilities ⊆
      (MatchingService.findMatches exDbC3 exReqC3 10).map (fun x => x.1.cap) :=
    fun c hc => (hiff c).mpr ⟨hc, hpass c hc⟩
  have hnodup : exDbC3.capabilities.Nodup := by decide
  have hlen1 : exDbC3.capabilities.length = 11 := by decide
  have hlen2 : ((MatchingService.findMatches exDbC3 exReqC3 10).map
      (fun x => x.1.cap)).length ≤ 10 := by
    rw [List.length_map]
    simp only [MatchingService.findMatches]
    by_cases hp : (ProviderCapability.search exDbC3 exReqC3.gpu_count
        exReqC3.gpu_type exReqC3.max_price_per_hour exReqC3.region).isEmpty
    · rw [if_pos hp]
      simp
    · rw [if_neg hp]
      exact List.length_take_le ..
  have hle := (List.subperm_of_subset hnodup hsub).length_le
  omega

/-- C3 witness: the theorem applied to `exDbC3` and capability `"10"`:
it is in the search result (its filter conjunction holds), and with the
eleven passing capabilities within a limit of 11 it is in the
`findMatches` result as well. -/
theorem findMatches_filter_spec_witness :
    (mkCapC3 10 ∈ (ProviderCapability.search exDbC3 exReqC3.gpu_count
        exReqC3.gpu_type exReqC3.max_price_per_hour exReqC3.region).map
        SearchRow.cap ↔
      mkCapC3 10 ∈ exDbC3.capabilities ∧
        capPasses exReqC3 (mkCapC3 10) = true) ∧
    (mkCapC3 10 ∈ (MatchingService.findMatches exDbC3 exReqC3 11).map
        (fun x => x.1.cap) ↔
      mkCapC3 10 ∈ exDbC3.capabilities ∧
        capPasses exReqC3 (mkCapC3 10) = true) :=
  ⟨(findMatches_filter_spec exDbC3 exReqC3 11 (mkCapC3 10) (by decide)).1,
   (findMatches_filter_spec exDbC3 exReqC3 11 (mkCapC3 10) (by decide)).2.2
     (by decide)⟩
